import Mathlib

/-!
Verification of the Slack payment-ingestion bot (src/main.py).

The development shallowly embeds the program:

* Pure string processing (field extraction, folder naming, sanitization,
  date parsing and formatting) is translated function by function from the
  Python source.  Python str.strip, single-character str.replace, and the
  strptime and strftime calls for the formats used by the program are
  modelled on lists of characters.  The character classes are the ASCII
  ones (the program's data is ASCII); CPython's strftime zero-pads the
  year as documented.
* The stateful webhook pipeline is embedded as explicit state passing over
  a capability record, Env, holding the remote-call functions (Drive,
  Sheets, Slack HTTP) as Except-valued functions, together with the
  processing date.  Each pipeline function returns the list of remote
  actions it performed, an Effect trace, paired with an Except result that
  models a raised exception; the try/except structure of the source is
  translated into the corresponding match on that result.
-/

namespace SlackBot

/-! ## Character helpers (Python semantics) -/

/-- Whitespace characters of Python's str.strip and of the regex class
backslash-s, restricted to ASCII: space, tab, newline, carriage return,
vertical tab, form feed. -/
def isPySpace (c : Char) : Bool :=
  c == ' ' || c == '\t' || c == '\n' || c == '\x0d' ||
  c == Char.ofNat 11 || c == Char.ofNat 12

/-- ASCII decimal digit test (the digits accepted by strptime's fields). -/
def isDigitChar (c : Char) : Bool :=
  48 ≤ c.toNat && c.toNat ≤ 57

/-- Numeric value of an ASCII digit character. -/
def digitVal (c : Char) : Nat := c.toNat - 48

/-- The ASCII digit character for a value below ten. -/
def digitChar (n : Nat) : Char := Char.ofNat (48 + n)

/-! ## Python str.strip -/

/-- Drop leading Python whitespace (left part of str.strip). -/
def lstripL (cs : List Char) : List Char := cs.dropWhile isPySpace

/-- Drop trailing Python whitespace (right part of str.strip). -/
def rstripL (cs : List Char) : List Char :=
  (cs.reverse.dropWhile isPySpace).reverse

/-- Python str.strip on a character list. -/
def pyStripL (cs : List Char) : List Char := rstripL (lstripL cs)

/-- Python str.strip on a string. -/
def pyStrip (s : String) : String := String.mk (pyStripL s.toList)

/-! ## Date model: strptime and strftime for the formats used -/

/-- A calendar date as validated by datetime (day, month, year). -/
structure Date where
  day : Nat
  month : Nat
  year : Nat
deriving DecidableEq

/-- Leap-year rule of the proleptic Gregorian calendar used by datetime. -/
def isLeap (y : Nat) : Bool :=
  (y % 4 == 0 && !(y % 100 == 0)) || y % 400 == 0

/-- Number of days of a month, as enforced by the datetime constructor. -/
def daysInMonth (m y : Nat) : Nat :=
  if m == 2 then (if isLeap y then 29 else 28)
  else if m == 4 || m == 6 || m == 9 || m == 11 then 30
  else 31

/-- strptime field of one or two ASCII digits (the d and m directives). -/
def parse2 (cs : List Char) : Option Nat :=
  match cs with
  | [a] => if isDigitChar a then some (digitVal a) else none
  | [a, b] =>
    if isDigitChar a && isDigitChar b then some (10 * digitVal a + digitVal b)
    else none
  | _ => none

/-- strptime field of exactly four ASCII digits (the Y directive). -/
def parse4 (cs : List Char) : Option Nat :=
  match cs with
  | [a, b, c, d] =>
    if isDigitChar a && isDigitChar b && isDigitChar c && isDigitChar d then
      some (1000 * digitVal a + 100 * digitVal b + 10 * digitVal c + digitVal d)
    else none
  | _ => none

/-- Split a character list at every occurrence of a separator character. -/
def splitOnChar (sep : Char) : List Char → List (List Char)
  | [] => [[]]
  | x :: rest =>
    let r := splitOnChar sep rest
    if x == sep then [] :: r
    else
      match r with
      | h :: t => (x :: h) :: t
      | [] => [[x]]

/-- datetime.strptime with format DD/MM/YYYY: two separator slashes, a one-
or two-digit day (1..31), a one- or two-digit month (1..12), a four-digit
year (at least 1, datetime's MINYEAR), and the day validated against the
month length; the whole input must be consumed.  Any failure, of the match
or of the datetime constructor, raises ValueError, modelled as none. -/
def parseDDMMYYYYL (cs : List Char) : Option Date :=
  match splitOnChar '/' cs with
  | [ds, ms, ys] =>
    match parse2 ds, parse2 ms, parse4 ys with
    | some d, some m, some y =>
      if 1 ≤ d && 1 ≤ m && m ≤ 12 && 1 ≤ y && d ≤ daysInMonth m y then
        some ⟨d, m, y⟩
      else none
    | _, _, _ => none
  | _ => none

/-- String form of parseDDMMYYYYL. -/
def parseDDMMYYYY (s : String) : Option Date := parseDDMMYYYYL s.toList

/-- datetime.strptime with format YYYY-MM-DD (the modal datepicker value). -/
def parseYYYYMMDDL (cs : List Char) : Option Date :=
  match splitOnChar '-' cs with
  | [ys, ms, ds] =>
    match parse4 ys, parse2 ms, parse2 ds with
    | some y, some m, some d =>
      if 1 ≤ d && 1 ≤ m && m ≤ 12 && 1 ≤ y && d ≤ daysInMonth m y then
        some ⟨d, m, y⟩
      else none
    | _, _, _ => none
  | _ => none

/-- strftime directive Y: the year zero-padded to four digits (datetime
years are between 1 and 9999). -/
def pad4L (n : Nat) : List Char :=
  [digitChar (n / 1000 % 10), digitChar (n / 100 % 10),
   digitChar (n / 10 % 10), digitChar (n % 10)]

/-- strftime directives m and d: a value zero-padded to two digits. -/
def pad2L (n : Nat) : List Char :=
  [digitChar (n / 10 % 10), digitChar (n % 10)]

/-! ## PaymentRecord (the fields dict) -/

/-- The canonical record: the five extracted fields, each a string.  An
absent field is the empty string, exactly as extract_fields produces. -/
structure Fields where
  DATA : String
  VALOR : String
  BANCO : String
  EMPRESA : String
  CL : String
deriving DecidableEq

/-- has_required_fields: Python truthiness of the DATA and VALOR entries
(all(fields.get(f) for f in REQUIRED_FIELDS) with REQUIRED_FIELDS the list
DATA, VALOR): both must be non-empty strings. -/
def has_required_fields (f : Fields) : Bool :=
  !(f.DATA == "") && !(f.VALOR == "")

/-! ## Field extraction (the regex search of extract_fields)

The pattern for each label is, in the source,
LABEL backslash-s-star [colon or hyphen] backslash-s-star
(dot-plus lazy) (newline or end), searched case-insensitively with
re.search.  matchFieldAt is the anchored match of that pattern at the head
of a character list, returning the captured group; searchField scans the
start positions left to right, as re.search does. -/

/-- ASCII case-insensitive character comparison (re.IGNORECASE on the
ASCII label letters). -/
def lowerEq (a b : Char) : Bool := a.toLower == b.toLower

/-- Match the label itself, case-insensitively, at the head of the list;
return the remainder on success. -/
def stripLabelCI : List Char → List Char → Option (List Char)
  | [], cs => some cs
  | _ :: _, [] => none
  | l :: ls, c :: cs => if lowerEq l c then stripLabelCI ls cs else none

/-- Anchored match of one field pattern at the head of the list, returning
the captured value.  After the label: any run of whitespace, a colon or
hyphen, then greedy whitespace with backtracking against the lazy
dot-plus group terminated by a newline or the end of input.  When any
non-whitespace text follows, the capture is that text up to the next
newline; when only whitespace follows the separator, the greedy/lazy
interplay captures the last whitespace character that is not itself a
newline, if one exists. -/
def matchFieldAt (label : List Char) (cs : List Char) : Option (List Char) :=
  match stripLabelCI label cs with
  | none => none
  | some rest =>
    match rest.dropWhile isPySpace with
    | [] => none
    | c :: rest2 =>
      if c == ':' || c == '-' then
        match rest2.dropWhile isPySpace with
        | v :: vs => some ((v :: vs).takeWhile (fun ch => !(ch == '\n')))
        | [] =>
          match rest2.reverse.find? (fun ch => !(ch == '\n')) with
          | some w => some [w]
          | none => none
      else none

/-- re.search: try the anchored match at each start position, left to
right, and return the first capture. -/
def searchField (label : List Char) : List Char → Option (List Char)
  | [] => none
  | c :: rest =>
    match matchFieldAt label (c :: rest) with
    | some v => some v
    | none => searchField label rest

/-- One entry of extract_fields: the stripped capture of the first match,
or the empty string when the label never matches. -/
def extractOne (label : String) (text : String) : String :=
  match searchField label.toList text.toList with
  | some v => String.mk (pyStripL v)
  | none => ""

/-- extract_fields: the five labelled fields extracted from the text. -/
def extract_fields (text : String) : Fields :=
  { DATA := extractOne "DATA" text
    VALOR := extractOne "VALOR" text
    BANCO := extractOne "BANCO" text
    EMPRESA := extractOne "EMPRESA" text
    CL := extractOne "CL" text }

/-! ## Folder naming -/

/-- The characters replaced by sanitize_folder_name. -/
def isForbidden (c : Char) : Bool :=
  c == '\\' || c == '/' || c == ':' || c == '*' || c == '?' ||
  c == '\"' || c == '<' || c == '>' || c == '|'

/-- sanitize_folder_name on a character list: re.sub of the forbidden
class by an underscore, then str.strip. -/
def sanitizeL (cs : List Char) : List Char :=
  pyStripL (cs.map (fun c => if isForbidden c then '_' else c))

/-- sanitize_folder_name: replace each problematic character by an
underscore and strip surrounding whitespace. -/
def sanitize_folder_name (s : String) : String :=
  String.mk (sanitizeL s.toList)

/-- Join parts with a separator character (str.join). -/
def joinParts (sep : Char) : List (List Char) → List Char
  | [] => []
  | [p] => p
  | p :: rest => p ++ sep :: joinParts sep rest

/-- build_folder_name: the date part is the ISO rendering of the stripped
DATA when it parses as DD/MM/YYYY, else the raw DATA with every slash
replaced by a hyphen; the amount has its space characters removed
(str.replace of a space by the empty string); each of BANCO, EMPRESA, CL
is stripped and appended only when non-empty; the parts are joined with
underscores and sanitized. -/
def build_folder_name (f : Fields) : String :=
  let dateL : List Char :=
    match parseDDMMYYYYL (pyStripL f.DATA.toList) with
    | some dt => pad4L dt.year ++ '-' :: pad2L dt.month ++ '-' :: pad2L dt.day
    | none => f.DATA.toList.map (fun c => if c == '/' then '-' else c)
  let valorL : List Char := f.VALOR.toList.filter (fun c => !(c == ' '))
  let parts : List (List Char) :=
    [dateL, valorL]
      ++ (if (pyStripL f.BANCO.toList).isEmpty then []
          else [pyStripL f.BANCO.toList])
      ++ (if (pyStripL f.EMPRESA.toList).isEmpty then []
          else [pyStripL f.EMPRESA.toList])
      ++ (if (pyStripL f.CL.toList).isEmpty then []
          else [pyStripL f.CL.toList])
  String.mk (sanitizeL (joinParts '_' parts))

/-- get_month_folder_name: the year-month of the stripped DATA when it
parses as DD/MM/YYYY, else the year-month of datetime.now, which is passed
explicitly as the processing date. -/
def get_month_folder_name (f : Fields) (now : Date) : String :=
  match parseDDMMYYYYL (pyStripL f.DATA.toList) with
  | some dt => String.mk (pad4L dt.year ++ '-' :: pad2L dt.month)
  | none => String.mk (pad4L now.year ++ '-' :: pad2L now.month)

/-- Syntactic YYYY-MM shape: four digits, a hyphen, two digits encoding a
month between 01 and 12. -/
def validYYYYMM (s : String) : Bool :=
  match s.toList with
  | [a, b, c, d, dash, m1, m2] =>
    isDigitChar a && isDigitChar b && isDigitChar c && isDigitChar d &&
    dash == '-' && isDigitChar m1 && isDigitChar m2 &&
    1 ≤ 10 * digitVal m1 + digitVal m2 && 10 * digitVal m1 + digitVal m2 ≤ 12
  | _ => false

/-! ## The remote-call environment and the effect trace

Every remote API call the pipeline makes is a field of Env: an
Except-valued function whose error case models the call raising an
exception.  Each pipeline function additionally records the calls it
performed, in order, as an Effect trace; trying a call records its effect
whether or not it succeeds. -/

/-- A file entry of a Slack message event (the keys the code reads;
an option is a key that may be absent from the JSON object). -/
structure SlackFile where
  urlPrivateDownload : Option String
  urlPrivate : Option String
  name : Option String
  mimetype : Option String
deriving DecidableEq

/-- A downloaded attachment ready for upload (bytes modelled opaquely as a
string). -/
structure Downloaded where
  content : String
  name : String
  mimetype : String
deriving DecidableEq

/-- One remote action performed by the pipeline. -/
inductive Effect where
  | driveList (name parentId : String)
  | driveCreate (name parentId : String)
  | driveGetLink (folderId : String)
  | sheetReadHeader
  | sheetWriteHeader
  | sheetAppend (row : List String)
  | httpGet (url : String)
  | driveUpload (folderId name mimetype : String)
  | slackFileInfo (fileId : String)
  | reaction (channel ts emoji : String)
  | reply (channel ts text : String)
  | message (channel text : String)
deriving DecidableEq

/-- The capability environment: configuration values read at process
start, the processing date, and the remote calls.  An Except error is the
call raising. -/
structure Env where
  rootFolderId : String
  slackChannelId : String
  now : Date
  nowStamp : String
  listFolders : String → String → Except String (List String)
  createFolder : String → String → Except String String
  getLink : String → Except String String
  readHeader : Except String (List (List String))
  appendRow : List String → Except String Unit
  httpGet : String → Except String (Nat × String)
  uploadFile : String → String → String → String → Except String String
  fileInfo : String → Option SlackFile

/-- Success test of a modelled remote call. -/
def isOk {α : Type} (r : Except String α) : Bool :=
  match r with
  | .ok _ => true
  | .error _ => false

/-- Predicate picking the upload effects out of a trace. -/
def isUpload (e : Effect) : Bool :=
  match e with
  | .driveUpload _ _ _ => true
  | _ => false

/-- Predicate picking the ledger-append effects out of a trace. -/
def isSheetAppend (e : Effect) : Bool :=
  match e with
  | .sheetAppend _ => true
  | _ => false

/-! ## Drive and Sheets helpers -/

/-- find_or_create_folder: list non-trashed folders with the exact name
under the parent; take the first result when any exists, otherwise create
the folder.  Either remote call raising propagates. -/
def find_or_create_folder (env : Env) (name parentId : String) :
    List Effect × Except String String :=
  match env.listFolders name parentId with
  | .error e => ([.driveList name parentId], .error e)
  | .ok (id :: _) => ([.driveList name parentId], .ok id)
  | .ok [] =>
    match env.createFolder name parentId with
    | .error e => ([.driveList name parentId, .driveCreate name parentId], .error e)
    | .ok id => ([.driveList name parentId, .driveCreate name parentId], .ok id)

/-- create_lancamento_folder: find-or-create the month folder under the
configured root, find-or-create the entry folder under it, then fetch the
entry folder's shareable link.  Returns the entry folder id and link. -/
def create_lancamento_folder (env : Env) (fields : Fields) :
    List Effect × Except String (String × String) :=
  match find_or_create_folder env (get_month_folder_name fields env.now) env.rootFolderId with
  | (t1, .error e) => (t1, .error e)
  | (t1, .ok monthId) =>
    match find_or_create_folder env (build_folder_name fields) monthId with
    | (t2, .error e) => (t1 ++ t2, .error e)
    | (t2, .ok lancId) =>
      match env.getLink lancId with
      | .error e => (t1 ++ t2 ++ [.driveGetLink lancId], .error e)
      | .ok link => (t1 ++ t2 ++ [.driveGetLink lancId], .ok (lancId, link))

/-- ensure_headers: read the first sheet row and write the fixed header
when it is empty; every failure of its own is swallowed, so only a trace
comes back. -/
def ensure_headers (env : Env) : List Effect :=
  match env.readHeader with
  | .error _ => [.sheetReadHeader]
  | .ok values =>
    if values.isEmpty then [.sheetReadHeader, .sheetWriteHeader]
    else [.sheetReadHeader]

/-- The row append_to_sheets writes: the five fields, the folder link, and
the registration timestamp. -/
def ledger_row (f : Fields) (link stamp : String) : List String :=
  [f.DATA, f.VALOR, f.BANCO, f.EMPRESA, f.CL, link, stamp]

/-! ## Attachment download and upload (message path) -/

/-- The url taken for a Slack file: url_private_download when truthy, else
url_private; the empty string stands for no usable url (Python or-chain on
possibly missing keys). -/
def pickUrl (a b : Option String) : String :=
  match a with
  | some s => if s == "" then (b.getD "") else s
  | none => b.getD ""

/-- download_slack_files: walk the files in order; a file without a usable
url is skipped with a warning; a non-200 response is logged and skipped; a
raised transport error propagates and aborts.  Returns the successfully
downloaded attachments in input order. -/
def download_slack_files (env : Env) :
    List SlackFile → List Effect × Except String (List Downloaded)
  | [] => ([], .ok [])
  | f :: rest =>
    let url := pickUrl f.urlPrivateDownload f.urlPrivate
    if url == "" then download_slack_files env rest
    else
      match env.httpGet url with
      | .error e => ([.httpGet url], .error e)
      | .ok (status, content) =>
        match download_slack_files env rest with
        | (tr, r) =>
          if status == 200 then
            (.httpGet url :: tr,
             r.map (fun ds =>
               ⟨content, f.name.getD "arquivo",
                f.mimetype.getD "application/octet-stream"⟩ :: ds))
          else (.httpGet url :: tr, r)

/-- The upload loop of the message path: upload each downloaded attachment
into the entry folder; an upload raising propagates (there is no per-file
handler around upload_file_to_drive). -/
def upload_downloaded (env : Env) (folderId : String) :
    List Downloaded → List Effect × Except String Unit
  | [] => ([], .ok ())
  | d :: rest =>
    match env.uploadFile folderId d.content d.name d.mimetype with
    | .error e => ([.driveUpload folderId d.name d.mimetype], .error e)
    | .ok _ =>
      match upload_downloaded env folderId rest with
      | (tr, r) => (.driveUpload folderId d.name d.mimetype :: tr, r)

/-- The success reply text of the message path. -/
def success_reply (link : String) (n : Nat) : String :=
  if n > 0 then
    "*Lancamento registrado!*\nPasta: " ++ link ++ "\n" ++
      toString n ++ " arquivo(s) salvos"
  else
    "*Lancamento registrado!*\nPasta: " ++ link ++ "\nNenhum comprovante anexado"

/-! ## Message-path orchestration (the body of slack_webhook) -/

/-- The try block of the message path: ensure headers, resolve the folder,
download the attachments, upload them, append the ledger row, then send
the success reaction and threaded reply.  The Except result is an
exception escaping the block. -/
def message_try (env : Env) (fields : Fields) (files : List SlackFile)
    (channel ts : String) : List Effect × Except String Unit :=
  let eff0 := ensure_headers env
  match create_lancamento_folder env fields with
  | (t1, .error e) => (eff0 ++ t1, .error e)
  | (t1, .ok (folderId, link)) =>
    match download_slack_files env files with
    | (t2, .error e) => (eff0 ++ t1 ++ t2, .error e)
    | (t2, .ok ds) =>
      match upload_downloaded env folderId ds with
      | (t3, .error e) => (eff0 ++ t1 ++ t2 ++ t3, .error e)
      | (t3, .ok _) =>
        let row := ledger_row fields link env.nowStamp
        match env.appendRow row with
        | .error e => (eff0 ++ t1 ++ t2 ++ t3 ++ [.sheetAppend row], .error e)
        | .ok _ =>
          (eff0 ++ t1 ++ t2 ++ t3 ++
            [.sheetAppend row,
             .reaction channel ts "white_check_mark",
             .reply channel ts (success_reply link ds.length)], .ok ())

/-- The message path after the guards: run the try block; on an escaping
exception add the failure reaction and the threaded reply carrying the
error text. -/
def process_message (env : Env) (fields : Fields) (files : List SlackFile)
    (channel ts : String) : List Effect :=
  match message_try env fields files channel ts with
  | (tr, .ok _) => tr
  | (tr, .error e) =>
    tr ++ [.reaction channel ts "x",
           .reply channel ts ("Erro ao processar lancamento: " ++ e)]

/-! ## The event webhook (routing guards of slack_webhook) -/

/-- The possible webhook responses of the event branch. -/
inductive WebhookResponse where
  | ok
  | challenge (s : String)
deriving DecidableEq

/-- The inbound headers the event branch reads; the empty string stands
for an absent (or falsy) X-Slack-Retry-Num header. -/
structure Headers where
  retryNum : String
deriving DecidableEq

/-- The event object of an event-callback payload; the empty string (or
none for subtype) stands for an absent key. -/
structure SlackEvent where
  type : String
  bot_id : String
  subtype : Option String
  channel : String
  ts : String
  text : String
  files : List SlackFile
deriving DecidableEq

/-- A parsed event payload: the top-level type, the challenge value, and
the event object. -/
structure EventPayload where
  dataType : String
  challenge : String
  event : SlackEvent
deriving DecidableEq

/-- The guarded tail of the event branch: channel filter, extraction,
required-fields guard, then the message pipeline. -/
def slack_webhook_guarded (env : Env) (event : SlackEvent) :
    WebhookResponse × List Effect :=
  if !(env.slackChannelId == "") && !(event.channel == env.slackChannelId) then
    (.ok, [])
  else
    let fields := extract_fields event.text
    if has_required_fields fields then
      (.ok, process_message env fields event.files event.channel event.ts)
    else (.ok, [])

/-- The event branch of slack_webhook, after signature verification and
JSON parsing: url-verification challenge, retry short-circuit, then the
message/bot/subtype guards, then the guarded tail. -/
def slack_webhook_event (env : Env) (headers : Headers) (data : EventPayload) :
    WebhookResponse × List Effect :=
  if data.dataType == "url_verification" then (.challenge data.challenge, [])
  else if !(headers.retryNum == "") then (.ok, [])
  else if !(data.event.type == "message") then (.ok, [])
  else if !(data.event.bot_id == "") then (.ok, [])
  else
    match data.event.subtype with
    | some st =>
      if !(st == "") && !(st == "file_share") then (.ok, [])
      else slack_webhook_guarded env data.event
    | none => slack_webhook_guarded env data.event

/-! ## Modal path (slash-command form submission) -/

/-- A file reference of the modal file input (the id key; empty for a
missing id). -/
structure ModalFile where
  id : String
deriving DecidableEq

/-- A parsed view_submission payload: callback id, submitting user, the
five input values (the datepicker value in YYYY-MM-DD form), the attached
file references, and the channel recovered from private_metadata (empty
when absent or unparseable). -/
structure ViewSubmission where
  callback_id : String
  user_id : String
  user_name : String
  selected_date : String
  valor : String
  banco : String
  empresa : String
  cl : String
  files : List ModalFile
  channel_id : String
deriving DecidableEq

/-- The fields dict built by handle_modal_submission: the datepicker value
is converted from YYYY-MM-DD to DD/MM/YYYY, falling back to the raw value
when the conversion raises; an absent date stays empty. -/
def modal_fields (p : ViewSubmission) : Fields :=
  let data_br :=
    if p.selected_date == "" then ""
    else
      match parseYYYYMMDDL p.selected_date.toList with
      | some d => String.mk (pad2L d.day ++ '/' :: pad2L d.month ++ '/' :: pad4L d.year)
      | none => p.selected_date
  { DATA := data_br, VALOR := p.valor, BANCO := p.banco,
    EMPRESA := p.empresa, CL := p.cl }

/-- The modal file loop: for each file reference with a truthy id, fetch
the file info (failures swallowed, the file skipped), pick the download
url (skipped when absent), download (a raised transport error propagates;
a non-200 response is logged and skipped), upload (raising propagates) and
count the successes. -/
def modal_file_loop (env : Env) (folderId : String) :
    List ModalFile → List Effect × Except String Nat
  | [] => ([], .ok 0)
  | f :: rest =>
    if f.id == "" then modal_file_loop env folderId rest
    else
      match env.fileInfo f.id with
      | none =>
        match modal_file_loop env folderId rest with
        | (tr, r) => (.slackFileInfo f.id :: tr, r)
      | some info =>
        let url := pickUrl info.urlPrivateDownload info.urlPrivate
        if url == "" then
          match modal_file_loop env folderId rest with
          | (tr, r) => (.slackFileInfo f.id :: tr, r)
        else
          match env.httpGet url with
          | .error e => ([.slackFileInfo f.id, .httpGet url], .error e)
          | .ok (status, content) =>
            if status == 200 then
              let filename := info.name.getD ("arquivo_" ++ f.id)
              let mt := info.mimetype.getD "application/octet-stream"
              match env.uploadFile folderId content filename mt with
              | .error e =>
                ([.slackFileInfo f.id, .httpGet url,
                  .driveUpload folderId filename mt], .error e)
              | .ok _ =>
                match modal_file_loop env folderId rest with
                | (tr, r) =>
                  (.slackFileInfo f.id :: .httpGet url ::
                     .driveUpload folderId filename mt :: tr,
                   r.map (· + 1))
            else
              match modal_file_loop env folderId rest with
              | (tr, r) => (.slackFileInfo f.id :: .httpGet url :: tr, r)

/-- The try block of process_modal_submission after the required-fields
guard: ensure headers, resolve the folder, run the file loop, append the
ledger row; returns the folder link and the file count. -/
def modal_try (env : Env) (fields : Fields) (files_data : List ModalFile) :
    List Effect × Except String (String × Nat) :=
  let eff0 := ensure_headers env
  match create_lancamento_folder env fields with
  | (t1, .error e) => (eff0 ++ t1, .error e)
  | (t1, .ok (folderId, link)) =>
    match modal_file_loop env folderId files_data with
    | (t2, .error e) => (eff0 ++ t1 ++ t2, .error e)
    | (t2, .ok count) =>
      let row := ledger_row fields link env.nowStamp
      match env.appendRow row with
      | .error e => (eff0 ++ t1 ++ t2 ++ [.sheetAppend row], .error e)
      | .ok _ => (eff0 ++ t1 ++ t2 ++ [.sheetAppend row], .ok (link, count))

/-- process_modal_submission: the required-fields guard posts an error
message and stops; otherwise the try block runs and, on success, a
channel message summarizes the registration, while every escaping
exception is caught and reported as a channel error message mentioning the
submitting user.  The function itself never raises. -/
def process_modal_submission (env : Env) (fields : Fields)
    (files_data : List ModalFile) (channel_id user_id : String) : List Effect :=
  if fields.DATA == "" || fields.VALOR == "" then
    if !(channel_id == "") then
      [.message channel_id ("<@" ++ user_id ++ "> Erro: DATA e VALOR sao obrigatorios.")]
    else []
  else
    match modal_try env fields files_data with
    | (tr, .ok (_link, _count)) =>
      if !(channel_id == "") then
        tr ++ [.message channel_id
          ("Pagamento registrado por <@" ++ user_id ++ ">: " ++
           fields.EMPRESA ++ " - " ++ fields.VALOR)]
      else tr
    | (tr, .error e) =>
      if !(channel_id == "") then
        tr ++ [.message channel_id
          ("<@" ++ user_id ++ "> Erro ao registrar pagamento: " ++ e)]
      else tr

/-- The responses handle_modal_submission may return: the plain ok object
for a foreign callback id, the clear action closing the modal, or a
validation-errors action (present in the source's handler-level except
branch; with the extraction embedded as total functions that branch is
the subject of claim C9). -/
inductive ModalResponse where
  | ack
  | clear
  | validationErrors (blockId msg : String)
deriving DecidableEq

/-- handle_modal_submission: a foreign callback id is acknowledged; a
matching one has its fields extracted, process_modal_submission runs (and
never raises), and the modal is closed with the clear action. -/
def handle_modal_submission (env : Env) (p : ViewSubmission) :
    ModalResponse × List Effect :=
  if !(p.callback_id == "pagamento_modal") then (.ack, [])
  else
    (.clear,
     process_modal_submission env (modal_fields p) p.files p.channel_id p.user_id)

/-! ## Spec-side definitions (for the refinement claims)

These definitions follow the words of the spec and of the claims, to be
compared against the definitions translated from the source. -/

/-- The eligibility predicate as the claim words it: date and amount
non-empty after trimming, the other fields ignored. -/
def eligibleTrimmed (f : Fields) : Bool :=
  !(pyStrip f.DATA == "") && !(pyStrip f.VALOR == "")

/-- The entry folder name as claim C4 words it: ordered parts of the ISO
date (or the raw date with slashes replaced), the amount with its internal
whitespace stripped, then each optional field when non-empty after
trimming; joined with underscores, the forbidden characters replaced by
underscores, and surrounding whitespace trimmed. -/
def entry_folder_name_claim (f : Fields) : String :=
  let dateL : List Char :=
    match parseDDMMYYYYL (pyStripL f.DATA.toList) with
    | some dt => pad4L dt.year ++ '-' :: pad2L dt.month ++ '-' :: pad2L dt.day
    | none => f.DATA.toList.map (fun c => if c == '/' then '-' else c)
  let amountL : List Char := f.VALOR.toList.filter (fun c => !(isPySpace c))
  let optional :=
    [pyStripL f.BANCO.toList, pyStripL f.EMPRESA.toList,
     pyStripL f.CL.toList].filter (fun p => !(p.isEmpty))
  String.mk
    (pyStripL ((joinParts '_' ([dateL, amountL] ++ optional)).map
      (fun c => if isForbidden c then '_' else c)))

/-- The entry folder name as claim C4 amended: identical to
entry_folder_name_claim except that only space characters, not all
whitespace, are removed from the amount. -/
def entry_folder_name_amended (f : Fields) : String :=
  let dateL : List Char :=
    match parseDDMMYYYYL (pyStripL f.DATA.toList) with
    | some dt => pad4L dt.year ++ '-' :: pad2L dt.month ++ '-' :: pad2L dt.day
    | none => f.DATA.toList.map (fun c => if c == '/' then '-' else c)
  let amountL : List Char := f.VALOR.toList.filter (fun c => !(c == ' '))
  let optional :=
    [pyStripL f.BANCO.toList, pyStripL f.EMPRESA.toList,
     pyStripL f.CL.toList].filter (fun p => !(p.isEmpty))
  String.mk
    (pyStripL ((joinParts '_' ([dateL, amountL] ++ optional)).map
      (fun c => if isForbidden c then '_' else c)))

/-- The attachments download_slack_files is specified to keep: the files
with a usable url whose download returns status 200, in input order. -/
def successfulDownloads (env : Env) (files : List SlackFile) : List Downloaded :=
  files.filterMap (fun f =>
    let url := pickUrl f.urlPrivateDownload f.urlPrivate
    if url == "" then none
    else
      match env.httpGet url with
      | .ok (status, content) =>
        if status == 200 then
          some ⟨content, f.name.getD "arquivo",
                f.mimetype.getD "application/octet-stream"⟩
        else none
      | .error _ => none)

/-! ## Concrete environments for the witnesses -/

/-- A concrete environment whose Drive folder listing raises, so that
folder resolution fails at its first remote call. -/
def envListFail : Env :=
  { rootFolderId := "ROOT"
    slackChannelId := ""
    now := ⟨12, 10, 2025⟩
    nowStamp := "12/10/2025 00:00:00"
    listFolders := fun _ _ => .error "Drive indisponivel"
    createFolder := fun _ _ => .ok "FID"
    getLink := fun _ => .ok "http-drive-link"
    readHeader := .ok [["DATA"]]
    appendRow := fun _ => .ok ()
    httpGet := fun _ => .ok (200, "bytes")
    uploadFile := fun _ _ _ _ => .ok "UP"
    fileInfo := fun _ => none }

/-- A concrete environment with a non-empty channel filter and all remote
calls succeeding. -/
def envChannelGuard : Env :=
  { rootFolderId := "ROOT"
    slackChannelId := "C_FIN"
    now := ⟨12, 10, 2025⟩
    nowStamp := "12/10/2025 00:00:00"
    listFolders := fun _ _ => .ok ["M1"]
    createFolder := fun _ _ => .ok "FID"
    getLink := fun _ => .ok "http-drive-link"
    readHeader := .ok [["DATA"]]
    appendRow := fun _ => .ok ()
    httpGet := fun _ => .ok (200, "bytes")
    uploadFile := fun _ _ _ _ => .ok "UP"
    fileInfo := fun _ => none }

/-- A concrete environment where every remote call succeeds, the month
folder exists, downloads answer 200 except for one url answering 404. -/
def envPartial : Env :=
  { rootFolderId := "ROOT"
    slackChannelId := ""
    now := ⟨12, 10, 2025⟩
    nowStamp := "12/10/2025 00:00:00"
    listFolders := fun _ _ => .ok ["M1"]
    createFolder := fun _ _ => .ok "FID"
    getLink := fun _ => .ok "http-drive-link"
    readHeader := .ok [["DATA"]]
    appendRow := fun _ => .ok ()
    httpGet := fun u => if u == "u2" then .ok (404, "") else .ok (200, "B")
    uploadFile := fun _ _ _ _ => .ok "UP"
    fileInfo := fun _ => none }

/-- A concrete environment where downloads all succeed but the upload of
one particular file name raises. -/
def envUploadFail : Env :=
  { rootFolderId := "ROOT"
    slackChannelId := ""
    now := ⟨12, 10, 2025⟩
    nowStamp := "12/10/2025 00:00:00"
    listFolders := fun _ _ => .ok ["M1"]
    createFolder := fun _ _ => .ok "FID"
    getLink := fun _ => .ok "http-drive-link"
    readHeader := .ok [["DATA"]]
    appendRow := fun _ => .ok ()
    httpGet := fun _ => .ok (200, "B")
    uploadFile := fun _ _ n _ => if n == "f2.pdf" then .error "upload quota" else .ok "UP"
    fileInfo := fun _ => none }

/-- Three message attachments; the second one's url answers 404 under
envPartial, and its name triggers the failing upload under envUploadFail. -/
def threeFiles : List SlackFile :=
  [⟨some "u1", none, some "f1.pdf", some "application/pdf"⟩,
   ⟨some "u2", none, some "f2.pdf", some "application/pdf"⟩,
   ⟨some "u3", none, some "f3.pdf", some "application/pdf"⟩]

/-! ## Lemmas about stripping -/

theorem dropWhile_idem {α : Type} (p : α → Bool) (l : List α) :
    (l.dropWhile p).dropWhile p = l.dropWhile p := by
  induction l with
  | nil => rfl
  | cons a t ih =>
    by_cases h : p a = true
    · simp [List.dropWhile_cons, h, ih]
    · simp [List.dropWhile_cons, h]

theorem dropWhile_head_false {α : Type} {p : α → Bool} {l : List α} {a : α}
    {t : List α} (h : l.dropWhile p = a :: t) : p a = false := by
  induction l with
  | nil => exact absurd h (by simp)
  | cons b t' ih =>
    by_cases hb : p b = true
    · rw [List.dropWhile_cons_of_pos hb] at h
      exact ih h
    · rw [List.dropWhile_cons_of_neg (by simpa using hb)] at h
      cases h
      simpa using hb

theorem dropWhile_eq_drop {α : Type} (p : α → Bool) (l : List α) :
    ∃ k, l.dropWhile p = l.drop k := by
  induction l with
  | nil => exact ⟨0, rfl⟩
  | cons a t ih =>
    by_cases h : p a = true
    · obtain ⟨k, hk⟩ := ih
      exact ⟨k + 1, by simpa [List.dropWhile_cons, h] using hk⟩
    · exact ⟨0, by simp [List.dropWhile_cons, h]⟩

theorem rstripL_eq_take (m : List Char) : ∃ j, rstripL m = m.take j := by
  obtain ⟨k, hk⟩ := dropWhile_eq_drop isPySpace m.reverse
  refine ⟨m.length - k, ?_⟩
  rw [rstripL, hk, List.reverse_drop]
  simp

theorem lstripL_idem (m : List Char) : lstripL (lstripL m) = lstripL m :=
  dropWhile_idem isPySpace m

theorem rstripL_idem (m : List Char) : rstripL (rstripL m) = rstripL m := by
  simp [rstripL, dropWhile_idem]

theorem lstripL_rstripL (m : List Char) (h : lstripL m = m) :
    lstripL (rstripL m) = rstripL m := by
  obtain ⟨j, hj⟩ := rstripL_eq_take m
  rw [hj]
  cases m with
  | nil => simp [lstripL]
  | cons a t =>
    have h' : List.dropWhile isPySpace (a :: t) = a :: t := h
    have ha : isPySpace a = false := dropWhile_head_false h'
    cases j with
    | zero => simp [lstripL]
    | succ j' => simp [lstripL, List.take_succ_cons, List.dropWhile_cons, ha]

theorem pyStripL_idem (cs : List Char) : pyStripL (pyStripL cs) = pyStripL cs := by
  show rstripL (lstripL (rstripL (lstripL cs))) = rstripL (lstripL cs)
  rw [lstripL_rstripL (lstripL cs) (lstripL_idem cs), rstripL_idem]

theorem mem_pyStripL {c : Char} {cs : List Char} (h : c ∈ pyStripL cs) : c ∈ cs := by
  have h1 : c ∈ lstripL cs := by
    have h0 : c ∈ (lstripL cs).reverse.dropWhile isPySpace := by
      simpa [pyStripL, rstripL] using h
    have := (List.dropWhile_sublist (l := (lstripL cs).reverse) isPySpace).subset h0
    simpa using this
  exact (List.dropWhile_sublist (l := cs) isPySpace).subset h1

theorem pyStrip_mk_pyStripL (v : List Char) :
    pyStrip (String.mk (pyStripL v)) = String.mk (pyStripL v) := by
  show String.mk (pyStripL (pyStripL v)) = String.mk (pyStripL v)
  rw [pyStripL_idem]

theorem pyStrip_extractOne (label text : String) :
    pyStrip (extractOne label text) = extractOne label text := by
  unfold extractOne
  cases h : searchField label.toList text.toList with
  | none => rfl
  | some v => exact pyStrip_mk_pyStripL v

/-! ## Lemmas about the date parser and formatter -/

theorem isDigitChar_bounds {c : Char} (h : isDigitChar c = true) :
    48 ≤ c.toNat ∧ c.toNat ≤ 57 := by
  simpa [isDigitChar, Bool.and_eq_true, decide_eq_true_eq] using h

theorem digitVal_le {c : Char} (h : isDigitChar c = true) : digitVal c ≤ 9 := by
  obtain ⟨h1, h2⟩ := isDigitChar_bounds h
  unfold digitVal
  omega

theorem parse4_le {cs : List Char} {y : Nat} (h : parse4 cs = some y) : y ≤ 9999 := by
  unfold parse4 at h
  split at h
  case _ a b c d =>
    split at h
    case isTrue hd =>
      simp only [Bool.and_eq_true] at hd
      obtain ⟨⟨⟨ha, hb⟩, hc⟩, hdd⟩ := hd
      cases h
      have := digitVal_le ha
      have := digitVal_le hb
      have := digitVal_le hc
      have := digitVal_le hdd
      omega
    case isFalse => exact absurd h (by simp)
  case _ => exact absurd h (by simp)

theorem parseDDMMYYYYL_bounds {cs : List Char} {d : Date}
    (h : parseDDMMYYYYL cs = some d) :
    1 ≤ d.year ∧ d.year ≤ 9999 ∧ 1 ≤ d.month ∧ d.month ≤ 12 := by
  unfold parseDDMMYYYYL at h
  split at h
  case _ ds ms ys =>
    split at h
    case _ dd m y hd hm hy =>
      split at h
      case isTrue hcond =>
        simp only [Bool.and_eq_true, decide_eq_true_eq] at hcond
        obtain ⟨⟨⟨⟨_, hm1⟩, hm2⟩, hy1⟩, _⟩ := hcond
        cases h
        exact ⟨hy1, parse4_le hy, hm1, hm2⟩
      case isFalse => exact absurd h (by simp)
    all_goals exact absurd h (by simp)
  case _ => exact absurd h (by simp)

theorem digitChar_isDigit : ∀ k, k < 10 → isDigitChar (digitChar k) = true := by decide

theorem digitVal_digitChar : ∀ k, k < 10 → digitVal (digitChar k) = k := by decide

theorem validYYYYMM_pad {y m : Nat} (_hy : y ≤ 9999) (hm1 : 1 ≤ m) (hm2 : m ≤ 12) :
    validYYYYMM (String.mk (pad4L y ++ '-' :: pad2L m)) = true := by
  have e1 := digitChar_isDigit (y / 1000 % 10) (Nat.mod_lt _ (by omega))
  have e2 := digitChar_isDigit (y / 100 % 10) (Nat.mod_lt _ (by omega))
  have e3 := digitChar_isDigit (y / 10 % 10) (Nat.mod_lt _ (by omega))
  have e4 := digitChar_isDigit (y % 10) (Nat.mod_lt _ (by omega))
  have e5 := digitChar_isDigit (m / 10 % 10) (Nat.mod_lt _ (by omega))
  have e6 := digitChar_isDigit (m % 10) (Nat.mod_lt _ (by omega))
  have v5 := digitVal_digitChar (m / 10 % 10) (Nat.mod_lt _ (by omega))
  have v6 := digitVal_digitChar (m % 10) (Nat.mod_lt _ (by omega))
  show (isDigitChar (digitChar (y / 1000 % 10)) &&
        isDigitChar (digitChar (y / 100 % 10)) &&
        isDigitChar (digitChar (y / 10 % 10)) &&
        isDigitChar (digitChar (y % 10)) &&
        ('-' == '-') &&
        isDigitChar (digitChar (m / 10 % 10)) &&
        isDigitChar (digitChar (m % 10)) &&
        decide (1 ≤ 10 * digitVal (digitChar (m / 10 % 10)) + digitVal (digitChar (m % 10))) &&
        decide (10 * digitVal (digitChar (m / 10 % 10)) + digitVal (digitChar (m % 10)) ≤ 12)) = true
  rw [e1, e2, e3, e4, e5, e6, v5, v6]
  simp only [Bool.and_eq_true, decide_eq_true_eq, beq_self_eq_true, and_true,
    true_and]
  omega

/-! ## Lemmas about search and sanitization -/

theorem matchFieldAt_nil (label : List Char) : matchFieldAt label [] = none := by
  cases label <;> rfl

theorem searchField_first (label : List Char) (cs : List Char) :
    (searchField label cs = none ∧ ∀ i, matchFieldAt label (cs.drop i) = none) ∨
    (∃ i v, matchFieldAt label (cs.drop i) = some v ∧
      (∀ j, j < i → matchFieldAt label (cs.drop j) = none) ∧
      searchField label cs = some v) := by
  induction cs with
  | nil =>
    left
    exact ⟨rfl, fun i => by simp [matchFieldAt_nil]⟩
  | cons a t ih =>
    cases hm : matchFieldAt label (a :: t) with
    | some v =>
      right
      refine ⟨0, v, by simpa using hm, fun j hj => absurd hj (Nat.not_lt_zero j), ?_⟩
      simp [searchField, hm]
    | none =>
      have hs : searchField label (a :: t) = searchField label t := by
        simp [searchField, hm]
      rcases ih with ⟨h1, h2⟩ | ⟨i, v, h1, h2, h3⟩
      · left
        refine ⟨hs ▸ h1, ?_⟩
        intro i
        cases i with
        | zero => simpa using hm
        | succ i' => simpa using h2 i'
      · right
        refine ⟨i + 1, v, by simpa using h1, ?_, hs ▸ h3⟩
        intro j hj
        cases j with
        | zero => simpa using hm
        | succ j' => simpa using h2 j' (by omega)

theorem isForbidden_underscore : isForbidden '_' = false := by decide

theorem sanitizeL_no_forbidden (l : List Char) :
    (sanitizeL l).all (fun c => !(isForbidden c)) = true := by
  rw [List.all_eq_true]
  intro c hc
  have hc' : c ∈ l.map (fun c => if isForbidden c then '_' else c) :=
    mem_pyStripL hc
  obtain ⟨b, _, rfl⟩ := List.mem_map.1 hc'
  by_cases hb : isForbidden b = true
  · simp [hb, isForbidden_underscore]
  · simp [hb]

theorem sanitizeL_trimmed (l : List Char) :
    pyStripL (sanitizeL l) = sanitizeL l := by
  unfold sanitizeL
  exact pyStripL_idem _

theorem parts_filter (P : List (List Char)) (A B C : List Char) :
    ((P ++ (if A.isEmpty then [] else [A])) ++ (if B.isEmpty then [] else [B])) ++
      (if C.isEmpty then [] else [C]) =
    P ++ [A, B, C].filter (fun p => !(p.isEmpty)) := by
  by_cases hA : A.isEmpty <;> by_cases hB : B.isEmpty <;> by_cases hC : C.isEmpty <;>
    simp [List.filter, hA, hB, hC]

/-! ## Claim C1 -/

/-- C1 (counterexample): the claim says get_month_folder_name depends only
on the record's content and not on the processing time.  It is false: for
a record whose DATA does not parse as DD/MM/YYYY, the function falls back
to the current processing month, so the same record yields different
month-folder names in different processing months. -/
theorem c1_month_name_depends_on_processing_time :
    get_month_folder_name ⟨"hoje", "R$ 10", "", "", ""⟩ ⟨15, 1, 2025⟩ ≠
      get_month_folder_name ⟨"hoje", "R$ 10", "", "", ""⟩ ⟨15, 2, 2025⟩ := by
  decide

/-- C1 (amended): build_folder_name is a function of the five field values
alone, and get_month_folder_name is independent of the processing date
whenever the stripped DATA value parses as DD/MM/YYYY; only the fallback
for an unparseable date reads the processing date. -/
theorem c1_folder_naming_deterministic (f g : Fields) (n n' : Date)
    (h1 : f.DATA = g.DATA) (h2 : f.VALOR = g.VALOR) (h3 : f.BANCO = g.BANCO)
    (h4 : f.EMPRESA = g.EMPRESA) (h5 : f.CL = g.CL) :
    build_folder_name f = build_folder_name g ∧
    ((parseDDMMYYYYL (pyStripL f.DATA.toList)).isSome = true →
      get_month_folder_name f n = get_month_folder_name g n') := by
  obtain rfl : f = g := by cases f; cases g; simp_all
  refine ⟨rfl, fun hp => ?_⟩
  rw [Option.isSome_iff_exists] at hp
  obtain ⟨d, hd⟩ := hp
  unfold get_month_folder_name
  rw [hd]

/-- C1 (witness): the amended theorem applied to a concrete parseable
record and two different processing dates. -/
theorem c1_folder_naming_deterministic_witness :
    build_folder_name ⟨"04/02/2025", "R$ 1.500,00", "Itau", "Empresa XYZ", "CC001"⟩ =
      build_folder_name ⟨"04/02/2025", "R$ 1.500,00", "Itau", "Empresa XYZ", "CC001"⟩ ∧
    ((parseDDMMYYYYL (pyStripL ("04/02/2025" : String).toList)).isSome = true →
      get_month_folder_name ⟨"04/02/2025", "R$ 1.500,00", "Itau", "Empresa XYZ", "CC001"⟩ ⟨1, 1, 2024⟩ =
        get_month_folder_name ⟨"04/02/2025", "R$ 1.500,00", "Itau", "Empresa XYZ", "CC001"⟩ ⟨2, 2, 2026⟩) :=
  c1_folder_naming_deterministic _ _ _ _ rfl rfl rfl rfl rfl

/-! ## Claim C3 -/

/-- C3 (counterexample): the claim says the eligibility predicate is true
iff date and amount are non-empty after trimming.  It is false: the guard
tests Python truthiness of the raw strings, so a whitespace-only amount
(reachable on the modal path, whose inputs are not trimmed) counts as
present although it is empty after trimming. -/
theorem c3_eligibility_not_trimmed :
    has_required_fields ⟨"04/02/2025", " ", "", "", ""⟩ ≠
      eligibleTrimmed ⟨"04/02/2025", " ", "", "", ""⟩ := by
  decide

/-- C3 (amended): the eligibility predicate is true iff the DATA and VALOR
strings are non-empty as given (no trimming), it depends only on those two
fields, and on the message path, where every extracted value is already
stripped, it coincides with the non-empty-after-trimming condition the
claim states. -/
theorem c3_eligibility_characterization (f g : Fields) (t : String)
    (h1 : f.DATA = g.DATA) (h2 : f.VALOR = g.VALOR) :
    has_required_fields f = has_required_fields g ∧
    has_required_fields (extract_fields t) = eligibleTrimmed (extract_fields t) := by
  constructor
  · simp [has_required_fields, h1, h2]
  · have hD : pyStrip ((extract_fields t).DATA) = (extract_fields t).DATA :=
      pyStrip_extractOne "DATA" t
    have hV : pyStrip ((extract_fields t).VALOR) = (extract_fields t).VALOR :=
      pyStrip_extractOne "VALOR" t
    simp only [has_required_fields, eligibleTrimmed, hD, hV]

/-- C3 (witness): the amended theorem applied to concrete records and the
scenario message text. -/
theorem c3_eligibility_characterization_witness :
    has_required_fields ⟨"04/02/2025", "R$ 9", "a", "b", "c"⟩ =
      has_required_fields ⟨"04/02/2025", "R$ 9", "x", "y", "z"⟩ ∧
    has_required_fields (extract_fields "DATA: 04/02/2025\nVALOR: R$ 9") =
      eligibleTrimmed (extract_fields "DATA: 04/02/2025\nVALOR: R$ 9") :=
  c3_eligibility_characterization ⟨"04/02/2025", "R$ 9", "a", "b", "c"⟩
    ⟨"04/02/2025", "R$ 9", "x", "y", "z"⟩ "DATA: 04/02/2025\nVALOR: R$ 9" rfl rfl

/-! ## Claim C4 -/

/-- C4 (counterexample): the claim says the amount part has its internal
whitespace stripped.  The source removes only space characters
(str.replace of a space), so an amount containing a tab keeps it: the
entry folder name differs from the claim's description on that input. -/
theorem c4_amount_whitespace_not_all_stripped :
    build_folder_name ⟨"04/02/2025", "R$ 1\t2", "", "", ""⟩ ≠
      entry_folder_name_claim ⟨"04/02/2025", "R$ 1\t2", "", "", ""⟩ := by
  decide

/-- C4 (amended): build_folder_name equals the claim's part-by-part
description once the amount transformation is read as removing space
characters only; moreover the output never contains a forbidden character
and carries no surrounding whitespace. -/
theorem c4_entry_folder_name_structure (f : Fields) :
    build_folder_name f = entry_folder_name_amended f ∧
    (build_folder_name f).toList.all (fun c => !(isForbidden c)) = true ∧
    pyStrip (build_folder_name f) = build_folder_name f := by
  refine ⟨?_, ?_, ?_⟩
  · unfold build_folder_name entry_folder_name_amended sanitizeL
    dsimp only
    rw [parts_filter]
  · show (sanitizeL _).all _ = true
    exact sanitizeL_no_forbidden _
  · show String.mk (pyStripL (sanitizeL _)) = String.mk (sanitizeL _)
    rw [sanitizeL_trimmed]

/-! ## Claim C5 -/

/-- C5: get_month_folder_name is total (the embedded function never
fails); it returns the parsed date's year-month when the stripped DATA
parses as DD/MM/YYYY and the processing date's year-month otherwise, and
in both cases the result is a syntactically valid YYYY-MM string (given a
processing date datetime.now can produce). -/
theorem c5_month_folder_name_total (f : Fields) (now : Date)
    (_h1 : 1 ≤ now.year) (h2 : now.year ≤ 9999)
    (h3 : 1 ≤ now.month) (h4 : now.month ≤ 12) :
    validYYYYMM (get_month_folder_name f now) = true ∧
    (∀ d, parseDDMMYYYYL (pyStripL f.DATA.toList) = some d →
      get_month_folder_name f now = String.mk (pad4L d.year ++ '-' :: pad2L d.month)) ∧
    (parseDDMMYYYYL (pyStripL f.DATA.toList) = none →
      get_month_folder_name f now = String.mk (pad4L now.year ++ '-' :: pad2L now.month)) := by
  cases hp : parseDDMMYYYYL (pyStripL f.DATA.toList) with
  | none =>
    refine ⟨?_, ?_, ?_⟩
    · simp only [get_month_folder_name, hp]
      exact validYYYYMM_pad h2 h3 h4
    · intro d hd
      cases hd
    · intro _
      simp only [get_month_folder_name, hp]
  | some d =>
    obtain ⟨hb1, hb2, hb3, hb4⟩ := parseDDMMYYYYL_bounds hp
    refine ⟨?_, ?_, ?_⟩
    · simp only [get_month_folder_name, hp]
      exact validYYYYMM_pad hb2 hb3 hb4
    · intro d' hd'
      cases hd'
      simp only [get_month_folder_name, hp]
    · intro hnone
      cases hnone

/-- C5 (witness): the theorem applied to a record whose DATA is a
malformed date (February 31st fails the datetime validation) and a
concrete processing date. -/
theorem c5_month_folder_name_total_witness :
    validYYYYMM (get_month_folder_name ⟨"31/02/2025", "R$ 1", "", "", ""⟩ ⟨12, 10, 2025⟩) = true ∧
    (∀ d, parseDDMMYYYYL (pyStripL ("31/02/2025" : String).toList) = some d →
      get_month_folder_name ⟨"31/02/2025", "R$ 1", "", "", ""⟩ ⟨12, 10, 2025⟩ =
        String.mk (pad4L d.year ++ '-' :: pad2L d.month)) ∧
    (parseDDMMYYYYL (pyStripL ("31/02/2025" : String).toList) = none →
      get_month_folder_name ⟨"31/02/2025", "R$ 1", "", "", ""⟩ ⟨12, 10, 2025⟩ =
        String.mk (pad4L 2025 ++ '-' :: pad2L 10)) :=
  c5_month_folder_name_total ⟨"31/02/2025", "R$ 1", "", "", ""⟩ ⟨12, 10, 2025⟩
    (by decide) (by decide) (by decide) (by decide)

/-! ## Claim C7 -/

/-- C7: extraction is total and, for every label, extract_fields returns
the trimmed capture of the first (leftmost) position where the field
pattern matches, the capture being terminated at the end of the line; a
label with no matching position yields the empty string.  The concrete
scenario message extracts to the expected record. -/
theorem c7_extraction_first_match (label : String) (text : String) :
    extract_fields text =
      ⟨extractOne "DATA" text, extractOne "VALOR" text, extractOne "BANCO" text,
       extractOne "EMPRESA" text, extractOne "CL" text⟩ ∧
    ((extractOne label text = "" ∧
        ∀ i, matchFieldAt label.toList (text.toList.drop i) = none) ∨
      (∃ i v, matchFieldAt label.toList (text.toList.drop i) = some v ∧
        (∀ j, j < i → matchFieldAt label.toList (text.toList.drop j) = none) ∧
        extractOne label text = String.mk (pyStripL v))) ∧
    extract_fields "DATA: 04/02/2025\nVALOR: R$ 1.500,00\nBANCO: Itau\nEMPRESA: Empresa XYZ\nCL: CC001" =
      ⟨"04/02/2025", "R$ 1.500,00", "Itau", "Empresa XYZ", "CC001"⟩ := by
    refine ⟨rfl, ?_, by decide⟩
    rcases searchField_first label.toList text.toList with ⟨h1, h2⟩ | ⟨i, v, h1, h2, h3⟩
    · left
      exact ⟨by unfold extractOne; rw [h1], h2⟩
    · right
      exact ⟨i, v, h1, h2, by unfold extractOne; rw [h3]⟩

/-! ## Trace lemmas for the pipeline -/

/-- The predicate separating the archive-write effects (uploads and ledger
appends) from the rest of a trace. -/
def cleanEffect (x : Effect) : Bool := !(isUpload x) && !(isSheetAppend x)

theorem fc_trace_clean (env : Env) (n p : String) :
    ((find_or_create_folder env n p).1).all cleanEffect = true := by
  unfold find_or_create_folder
  rcases h : env.listFolders n p with e | ids
  · simp [cleanEffect, isUpload, isSheetAppend]
  · cases ids with
    | nil =>
      rcases h2 : env.createFolder n p with e | id <;>
        simp [cleanEffect, isUpload, isSheetAppend]
    | cons id rest => simp [cleanEffect, isUpload, isSheetAppend]

theorem all_clean_append {l1 l2 : List Effect} (a : l1.all cleanEffect = true)
    (b : l2.all cleanEffect = true) : (l1 ++ l2).all cleanEffect = true := by
  simp [List.all_append, a, b]

theorem clf_trace_clean (env : Env) (f : Fields) :
    ((create_lancamento_folder env f).1).all cleanEffect = true := by
  rcases h1 : find_or_create_folder env (get_month_folder_name f env.now) env.rootFolderId
    with ⟨t1, r1⟩
  have c1 : t1.all cleanEffect = true := by
    have hc := fc_trace_clean env (get_month_folder_name f env.now) env.rootFolderId
    rw [h1] at hc
    exact hc
  cases r1 with
  | error e =>
    simp only [create_lancamento_folder, h1]
    exact c1
  | ok monthId =>
    rcases h2 : find_or_create_folder env (build_folder_name f) monthId with ⟨t2, r2⟩
    have c2 : t2.all cleanEffect = true := by
      have hc := fc_trace_clean env (build_folder_name f) monthId
      rw [h2] at hc
      exact hc
    cases r2 with
    | error e =>
      simp only [create_lancamento_folder, h1, h2]
      exact all_clean_append c1 c2
    | ok lancId =>
      rcases h3 : env.getLink lancId with e | link <;>
      · simp only [create_lancamento_folder, h1, h2, h3]
        exact all_clean_append (all_clean_append c1 c2)
          (show [Effect.driveGetLink lancId].all cleanEffect = true from rfl)

theorem ensure_headers_clean (env : Env) :
    (ensure_headers env).all cleanEffect = true := by
  unfold ensure_headers
  rcases h : env.readHeader with e | values
  · simp [cleanEffect, isUpload, isSheetAppend]
  · by_cases hv : values.isEmpty <;> simp [hv, cleanEffect, isUpload, isSheetAppend]

/-! ## Claim C2 -/

/-- C2: when folder resolution fails with an error, the message-path
ingestion performs no upload and no ledger append anywhere in its trace,
and it emits the negative reaction and a threaded reply carrying the error
text. -/
theorem c2_resolution_failure_aborts (env : Env) (fields : Fields)
    (files : List SlackFile) (channel ts e : String)
    (h : (create_lancamento_folder env fields).2 = Except.error e) :
    (process_message env fields files channel ts).all cleanEffect = true ∧
    Effect.reaction channel ts "x" ∈ process_message env fields files channel ts ∧
    Effect.reply channel ts ("Erro ao processar lancamento: " ++ e) ∈
      process_message env fields files channel ts := by
  rcases hcl : create_lancamento_folder env fields with ⟨t1, r⟩
  have h' : r = Except.error e := by
    rw [hcl] at h
    exact h
  subst h'
  have hclean : t1.all cleanEffect = true := by
    have hc := clf_trace_clean env fields
    rw [hcl] at hc
    exact hc
  have hmt : message_try env fields files channel ts =
      (ensure_headers env ++ t1, Except.error e) := by
    unfold message_try
    rw [hcl]
  have hpm : process_message env fields files channel ts =
      (ensure_headers env ++ t1) ++
        [Effect.reaction channel ts "x",
         Effect.reply channel ts ("Erro ao processar lancamento: " ++ e)] := by
    unfold process_message
    rw [hmt]
  rw [hpm]
  refine ⟨?_, ?_, ?_⟩
  · exact all_clean_append (all_clean_append (ensure_headers_clean env) hclean) rfl
  · simp
  · simp

/-- C2 (witness): under an environment whose folder listing raises, a
concrete message ingestion uploads nothing, appends nothing, and sends the
negative reaction and the error reply. -/
theorem c2_resolution_failure_aborts_witness :
    (create_lancamento_folder envListFail ⟨"04/02/2025", "R$ 9", "", "", ""⟩).2 =
      Except.error "Drive indisponivel" ∧
    ((process_message envListFail ⟨"04/02/2025", "R$ 9", "", "", ""⟩ threeFiles
        "C1" "111.222").all cleanEffect = true ∧
      Effect.reaction "C1" "111.222" "x" ∈
        process_message envListFail ⟨"04/02/2025", "R$ 9", "", "", ""⟩ threeFiles
          "C1" "111.222" ∧
      Effect.reply "C1" "111.222" ("Erro ao processar lancamento: " ++ "Drive indisponivel") ∈
        process_message envListFail ⟨"04/02/2025", "R$ 9", "", "", ""⟩ threeFiles
          "C1" "111.222") :=
  ⟨rfl, c2_resolution_failure_aborts envListFail ⟨"04/02/2025", "R$ 9", "", "", ""⟩
    threeFiles "C1" "111.222" "Drive indisponivel" rfl⟩

/-! ## Lemmas for the attachment batch -/

theorem countP_isUpload_zero_of_clean {l : List Effect}
    (h : l.all cleanEffect = true) : l.countP isUpload = 0 := by
  rw [List.countP_eq_zero]
  rw [List.all_eq_true] at h
  intro a ha
  have := h a ha
  simp only [cleanEffect, Bool.and_eq_true, Bool.not_eq_true'] at this
  simp [this.1]

theorem download_ok_characterization (env : Env) :
    ∀ (files : List SlackFile) (ds : List Downloaded),
      (download_slack_files env files).2 = Except.ok ds →
      ds = successfulDownloads env files := by
  intro files
  induction files with
  | nil =>
    intro ds h
    have h' : Except.ok ([] : List Downloaded) = Except.ok ds := h
    cases h'
    rfl
  | cons f rest ih =>
    intro ds h
    simp only [download_slack_files] at h
    by_cases hurl : pickUrl f.urlPrivateDownload f.urlPrivate = ""
    · rw [if_pos (show (pickUrl f.urlPrivateDownload f.urlPrivate == "") = true by
        simpa using hurl)] at h
      have hrec := ih ds h
      simpa [successfulDownloads, List.filterMap_cons, hurl] using hrec
    · rw [if_neg (show ¬ (pickUrl f.urlPrivateDownload f.urlPrivate == "") = true by
        simpa using hurl)] at h
      rcases hg : env.httpGet (pickUrl f.urlPrivateDownload f.urlPrivate)
        with e | ⟨status, content⟩
      · simp [hg] at h
      · simp only [hg] at h
        rcases hrec : download_slack_files env rest with ⟨tr, r⟩
        cases r with
        | error e2 =>
          by_cases hst : status = 200 <;>
            simp [hrec, hst, Except.map] at h
        | ok ds' =>
          have hih : ds' = successfulDownloads env rest :=
            ih ds' (by rw [hrec])
          by_cases hst : status = 200
          · simp only [hrec, hst, if_true, beq_self_eq_true, Except.map] at h
            have h' : Except.ok
                (({content := content, name := f.name.getD "arquivo",
                   mimetype := f.mimetype.getD "application/octet-stream"} : Downloaded)
                  :: ds') = Except.ok ds := h
            cases h'
            simp [successfulDownloads, List.filterMap_cons, hurl, hg, hst]
            rw [hih]
            simp [successfulDownloads]
          · simp only [hrec, show (status == 200) = false by simpa using hst,
              Bool.false_eq_true, if_false] at h
            have h' : Except.ok ds' = Except.ok ds := h
            cases h'
            simp [successfulDownloads, List.filterMap_cons, hurl, hg, hst]
            rw [hih]
            simp [successfulDownloads]

theorem dl_trace_clean (env : Env) :
    ∀ files, ((download_slack_files env files).1).all cleanEffect = true := by
  intro files
  induction files with
  | nil => rfl
  | cons f rest ih =>
    simp only [download_slack_files]
    by_cases hurl : (pickUrl f.urlPrivateDownload f.urlPrivate == "") = true
    · rw [if_pos hurl]
      exact ih
    · rw [if_neg hurl]
      rcases hg : env.httpGet (pickUrl f.urlPrivateDownload f.urlPrivate)
        with e | ⟨status, content⟩
      · rfl
      · rcases hrec : download_slack_files env rest with ⟨tr, r⟩
        have ih' : tr.all cleanEffect = true := by
          rw [hrec] at ih
          exact ih
        by_cases hst : (status == 200) = true <;>
          simp [hst, cleanEffect, isUpload, isSheetAppend, ih']

theorem upload_all_ok (env : Env) (folderId : String) :
    ∀ ds : List Downloaded,
      (∀ d ∈ ds, isOk (env.uploadFile folderId d.content d.name d.mimetype) = true) →
      upload_downloaded env folderId ds =
        (ds.map (fun d => Effect.driveUpload folderId d.name d.mimetype),
         Except.ok ()) := by
  intro ds
  induction ds with
  | nil => intro _; rfl
  | cons d rest ih =>
    intro h
    have hd := h d (List.mem_cons_self d rest)
    rcases hu : env.uploadFile folderId d.content d.name d.mimetype with e | id
    · rw [hu] at hd
      simp [isOk] at hd
    · have hrest := ih (fun x hx => h x (List.mem_cons_of_mem d hx))
      simp [upload_downloaded, hu, hrest]

/-! ## Claim C6 -/

/-- C6 (counterexample): the claim says a failure to download or upload a
file is skipped without aborting and the pipeline proceeds to the ledger
write regardless.  It is false for uploads: with three attachments that
all download, a raised upload for the second file aborts the ingestion —
no ledger row is appended and the failure reaction is sent instead of the
success path. -/
theorem c6_upload_failure_aborts :
    (process_message envUploadFail ⟨"04/02/2025", "R$ 9", "", "", ""⟩ threeFiles
        "C1" "111.222").all (fun x => !(isSheetAppend x)) = true ∧
    Effect.reaction "C1" "111.222" "x" ∈
      process_message envUploadFail ⟨"04/02/2025", "R$ 9", "", "", ""⟩ threeFiles
        "C1" "111.222" := by
  decide

/-- C6 (amended): per-file download failures (missing url or non-200
status) are skipped without aborting: the kept batch is exactly the
successful downloads, and when the uploads and the ledger append succeed
the pipeline reports the archived count — the number of upload effects and
the count in the success reply both equal the batch length — and appends
the ledger row.  (A raised upload aborts instead, per the
counterexample.) -/
theorem c6_partial_download_tolerated (env : Env) (fields : Fields)
    (files : List SlackFile) (channel ts folderId link : String)
    (ds : List Downloaded)
    (hfold : (create_lancamento_folder env fields).2 = Except.ok (folderId, link))
    (hdl : (download_slack_files env files).2 = Except.ok ds)
    (hup : ∀ d ∈ ds, isOk (env.uploadFile folderId d.content d.name d.mimetype) = true)
    (happ : env.appendRow (ledger_row fields link env.nowStamp) = Except.ok ()) :
    ds = successfulDownloads env files ∧
    (process_message env fields files channel ts).countP isUpload = ds.length ∧
    Effect.sheetAppend (ledger_row fields link env.nowStamp) ∈
      process_message env fields files channel ts ∧
    Effect.reaction channel ts "white_check_mark" ∈
      process_message env fields files channel ts ∧
    Effect.reply channel ts (success_reply link ds.length) ∈
      process_message env fields files channel ts := by
  rcases hcl : create_lancamento_folder env fields with ⟨t1, r1⟩
  have hr1 : r1 = Except.ok (folderId, link) := by
    rw [hcl] at hfold
    exact hfold
  subst hr1
  rcases hdlp : download_slack_files env files with ⟨t2, r2⟩
  have hr2 : r2 = Except.ok ds := by
    rw [hdlp] at hdl
    exact hdl
  subst hr2
  have hupl := upload_all_ok env folderId ds hup
  have hmt : message_try env fields files channel ts =
      (ensure_headers env ++ t1 ++ t2 ++
         ds.map (fun d => Effect.driveUpload folderId d.name d.mimetype) ++
         [Effect.sheetAppend (ledger_row fields link env.nowStamp),
          Effect.reaction channel ts "white_check_mark",
          Effect.reply channel ts (success_reply link ds.length)],
       Except.ok ()) := by
    simp only [message_try, hcl, hdlp, hupl, happ]
  have hpm : process_message env fields files channel ts =
      ensure_headers env ++ t1 ++ t2 ++
        ds.map (fun d => Effect.driveUpload folderId d.name d.mimetype) ++
        [Effect.sheetAppend (ledger_row fields link env.nowStamp),
         Effect.reaction channel ts "white_check_mark",
         Effect.reply channel ts (success_reply link ds.length)] := by
    unfold process_message
    rw [hmt]
  have hc1 : t1.all cleanEffect = true := by
    have hc := clf_trace_clean env fields
    rw [hcl] at hc
    exact hc
  have hc2 : t2.all cleanEffect = true := by
    have hc := dl_trace_clean env files
    rw [hdlp] at hc
    exact hc
  refine ⟨download_ok_characterization env files ds (by rw [hdlp]), ?_, ?_, ?_, ?_⟩
  · rw [hpm]
    simp only [List.countP_append]
    rw [countP_isUpload_zero_of_clean (ensure_headers_clean env),
        countP_isUpload_zero_of_clean hc1,
        countP_isUpload_zero_of_clean hc2]
    have hmap : (ds.map (fun d => Effect.driveUpload folderId d.name d.mimetype)).countP
        isUpload = ds.length := by
      rw [List.countP_map]
      exact List.countP_eq_length.mpr (fun a _ => rfl)
    have htail : ([Effect.sheetAppend (ledger_row fields link env.nowStamp),
        Effect.reaction channel ts "white_check_mark",
        Effect.reply channel ts (success_reply link ds.length)].countP isUpload) = 0 := rfl
    rw [hmap, htail]
    omega
  · rw [hpm]
    simp
  · rw [hpm]
    simp
  · rw [hpm]
    simp

/-- C6 (witness): three concrete attachments of which the second answers
404 — the batch keeps the other two, two uploads happen, the ledger row is
appended and the success reply reports two archived files. -/
theorem c6_partial_download_tolerated_witness :
    ([⟨"B", "f1.pdf", "application/pdf"⟩, ⟨"B", "f3.pdf", "application/pdf"⟩] :
        List Downloaded) = successfulDownloads envPartial threeFiles ∧
    (process_message envPartial ⟨"04/02/2025", "R$ 9", "", "", ""⟩ threeFiles
        "C1" "111.222").countP isUpload =
      ([⟨"B", "f1.pdf", "application/pdf"⟩, ⟨"B", "f3.pdf", "application/pdf"⟩] :
        List Downloaded).length ∧
    Effect.sheetAppend (ledger_row ⟨"04/02/2025", "R$ 9", "", "", ""⟩
        "http-drive-link" envPartial.nowStamp) ∈
      process_message envPartial ⟨"04/02/2025", "R$ 9", "", "", ""⟩ threeFiles
        "C1" "111.222" ∧
    Effect.reaction "C1" "111.222" "white_check_mark" ∈
      process_message envPartial ⟨"04/02/2025", "R$ 9", "", "", ""⟩ threeFiles
        "C1" "111.222" ∧
    Effect.reply "C1" "111.222" (success_reply "http-drive-link"
        ([⟨"B", "f1.pdf", "application/pdf"⟩, ⟨"B", "f3.pdf", "application/pdf"⟩] :
          List Downloaded).length) ∈
      process_message envPartial ⟨"04/02/2025", "R$ 9", "", "", ""⟩ threeFiles
        "C1" "111.222" :=
  c6_partial_download_tolerated envPartial ⟨"04/02/2025", "R$ 9", "", "", ""⟩
    threeFiles "C1" "111.222" "M1" "http-drive-link"
    [⟨"B", "f1.pdf", "application/pdf"⟩, ⟨"B", "f3.pdf", "application/pdf"⟩]
    rfl rfl (by decide) rfl

/-! ## Claim C9 -/

/-- C9: a view submission with the matching callback id always closes the
modal with the clear response action, whatever the ingestion outcome,
because the modal processing catches every escaping exception itself; an
ingestion failure (here: folder resolution raising, with both required
fields present and a recorded channel) is reported only as a channel
message mentioning the submitting user, never as a modal validation
error. -/
theorem c9_modal_always_clears (env : Env) (p : ViewSubmission)
    (hcb : p.callback_id = "pagamento_modal") :
    (handle_modal_submission env p).1 = ModalResponse.clear ∧
    (∀ e, (create_lancamento_folder env (modal_fields p)).2 = Except.error e →
      ¬ (modal_fields p).DATA = "" → ¬ (modal_fields p).VALOR = "" →
      ¬ p.channel_id = "" →
      Effect.message p.channel_id
          ("<@" ++ p.user_id ++ "> Erro ao registrar pagamento: " ++ e) ∈
        (handle_modal_submission env p).2) := by
  have hh : handle_modal_submission env p =
      (ModalResponse.clear,
       process_modal_submission env (modal_fields p) p.files p.channel_id p.user_id) := by
    unfold handle_modal_submission
    rw [if_neg (by simp [hcb])]
  constructor
  · rw [hh]
  · intro e he hD hV hC
    rw [hh]
    rcases hcl : create_lancamento_folder env (modal_fields p) with ⟨t1, r⟩
    have hr : r = Except.error e := by
      rw [hcl] at he
      exact he
    subst hr
    have hmt : modal_try env (modal_fields p) p.files =
        (ensure_headers env ++ t1, Except.error e) := by
      unfold modal_try
      rw [hcl]
    have hpms : process_modal_submission env (modal_fields p) p.files p.channel_id
        p.user_id =
        (ensure_headers env ++ t1) ++
          [Effect.message p.channel_id
            ("<@" ++ p.user_id ++ "> Erro ao registrar pagamento: " ++ e)] := by
      unfold process_modal_submission
      rw [if_neg (by simp [hD, hV]), hmt]
      simp [hC]
    rw [hpms]
    simp

/-- C9 (witness): a concrete submission under the failing-Drive
environment closes the modal with clear and reports the resolution error
as a channel message. -/
theorem c9_modal_always_clears_witness :
    (handle_modal_submission envListFail
        ⟨"pagamento_modal", "U1", "user", "2025-03-15", "R$ 5", "", "", "", [], "C1"⟩).1 =
      ModalResponse.clear ∧
    (∀ e, (create_lancamento_folder envListFail (modal_fields
          ⟨"pagamento_modal", "U1", "user", "2025-03-15", "R$ 5", "", "", "", [], "C1"⟩)).2 =
        Except.error e →
      ¬ (modal_fields ⟨"pagamento_modal", "U1", "user", "2025-03-15", "R$ 5", "", "", "", [], "C1"⟩).DATA = "" →
      ¬ (modal_fields ⟨"pagamento_modal", "U1", "user", "2025-03-15", "R$ 5", "", "", "", [], "C1"⟩).VALOR = "" →
      ¬ ("C1" : String) = "" →
      Effect.message "C1" ("<@" ++ "U1" ++ "> Erro ao registrar pagamento: " ++ e) ∈
        (handle_modal_submission envListFail
          ⟨"pagamento_modal", "U1", "user", "2025-03-15", "R$ 5", "", "", "", [], "C1"⟩).2) :=
  c9_modal_always_clears envListFail
    ⟨"pagamento_modal", "U1", "user", "2025-03-15", "R$ 5", "", "", "", [], "C1"⟩ rfl

/-! ## Claim C8 -/

/-- C8: an event-callback delivery carrying a truthy X-Slack-Retry-Num
header (and not a url-verification handshake, which is checked first) is
acknowledged with the ok response and produces no effects at all: no
extraction result is acted on, no remote call is made, no notification is
sent. -/
theorem c8_retry_short_circuit (env : Env) (headers : Headers)
    (data : EventPayload) (h1 : ¬ headers.retryNum = "")
    (h2 : ¬ data.dataType = "url_verification") :
    slack_webhook_event env headers data = (WebhookResponse.ok, []) := by
  unfold slack_webhook_event
  rw [if_neg (by simpa using h2), if_pos (by simpa using h1)]

/-- C8 (witness): a concrete retried event delivery is acknowledged with
no effects. -/
theorem c8_retry_short_circuit_witness :
    slack_webhook_event envListFail ⟨"1"⟩
      ⟨"event_callback", "",
       ⟨"message", "", none, "C1", "111.222", "DATA: 04/02/2025\nVALOR: R$ 9", []⟩⟩ =
      (WebhookResponse.ok, []) :=
  c8_retry_short_circuit envListFail ⟨"1"⟩
    ⟨"event_callback", "",
     ⟨"message", "", none, "C1", "111.222", "DATA: 04/02/2025\nVALOR: R$ 9", []⟩⟩
    (by decide) (by decide)

/-! ## Claim C10 -/

/-- C10: when the configured channel filter is non-empty, a message event
from any other channel is acknowledged with the ok response and dropped
with no effects: no extraction result is acted on, no remote call is made,
no notification is sent. -/
theorem c10_channel_filter_drops (env : Env) (headers : Headers)
    (data : EventPayload) (h1 : ¬ env.slackChannelId = "")
    (h2 : ¬ data.event.channel = env.slackChannelId)
    (h3 : ¬ data.dataType = "url_verification")
    (h4 : data.event.type = "message") :
    slack_webhook_event env headers data = (WebhookResponse.ok, []) := by
  have hguard : slack_webhook_guarded env data.event = (WebhookResponse.ok, []) := by
    unfold slack_webhook_guarded
    rw [if_pos]
    simp [h1, h2]
  unfold slack_webhook_event
  rw [if_neg (by simpa using h3)]
  by_cases hr : headers.retryNum = ""
  · rw [if_neg (by simpa using hr)]
    rw [if_neg (by simp [h4])]
    by_cases hb : data.event.bot_id = ""
    · rw [if_neg (by simpa using hb)]
      rcases hsub : data.event.subtype with _ | st
      · exact hguard
      · dsimp only
        by_cases hst : (!(st == "") && !(st == "file_share")) = true
        · rw [if_pos hst]
        · rw [if_neg hst]
          exact hguard
    · rw [if_pos (by simpa using hb)]
  · rw [if_pos (by simpa using hr)]

/-- C10 (witness): a concrete message event from a foreign channel is
dropped with no effects although its text is an eligible record. -/
theorem c10_channel_filter_drops_witness :
    slack_webhook_event envChannelGuard ⟨""⟩
      ⟨"event_callback", "",
       ⟨"message", "", none, "C_OTHER", "111.222", "DATA: 04/02/2025\nVALOR: R$ 9", []⟩⟩ =
      (WebhookResponse.ok, []) :=
  c10_channel_filter_drops envChannelGuard ⟨""⟩
    ⟨"event_callback", "",
     ⟨"message", "", none, "C_OTHER", "111.222", "DATA: 04/02/2025\nVALOR: R$ 9", []⟩⟩
    (by decide) (by decide) (by decide) (by decide)

end SlackBot
